import Mathlib

/-!
Shallow embedding of the CricketGame backend's match engine
(`backend/game/cards.py`, `backend/game/innings.py`, `backend/game/match.py`),
the realtime post-ball / auto-strike control flow
(`backend/realtime/match/actions/ball.py`, `.../captain.py`) and the CPU
learning utilities (`backend/cpu/cpu_strategy_engine.py`,
`backend/cpu/cpu_learning_utils.py`).

Conventions used throughout:
* Python ints are `Int` where negative values can arise (moves, runs) and
  `Nat` for counters that are only ever incremented from 0.
* Python floats are modelled as `ℚ` (exact arithmetic).
* Python dicts keyed by player name are modelled as total functions
  `String → card`; the program only ever queries the names of the side the
  dict was built from, for which the function agrees with the dict.
* A Python method that mutates `self` becomes a function returning the new
  state; `resolve_ball`'s early-exit error dict becomes `Except`.
-/

namespace CricketGame

/-- One entry of the candidate lists returned by `available_next_batters` /
`available_next_bowlers` (`{"player": name, "disabled": bool}`). -/
structure PlayerOption where
  player : String
  disabled : Bool
deriving Repr, DecidableEq

/-- Per-player batting stats for one innings (`cards.py`, `BattingCard`). -/
structure BattingCard where
  name : String
  runs : Int
  balls : Nat
  fours : Nat
  sixes : Nat
  dismissal : String
  is_out : Bool
deriving Repr, DecidableEq

/-- `BattingCard.__init__`. -/
def BattingCard.init (player_name : String) : BattingCard :=
  ⟨player_name, 0, 0, 0, 0, "not out", false⟩

/-- Per-player bowling stats for one innings (`cards.py`, `BowlingCard`). -/
structure BowlingCard where
  name : String
  overs_completed : Nat
  balls_bowled_in_over : Nat
  runs_conceded : Int
  wickets : Nat
deriving Repr, DecidableEq

/-- `BowlingCard.__init__`. -/
def BowlingCard.init (player_name : String) : BowlingCard :=
  ⟨player_name, 0, 0, 0, 0⟩

/-- The per-ball result dict built by `Innings.resolve_ball`.  The keys that
are only conditionally present in the Python dict (`needs_batter_choice`,
`available_batters`, ...) get defaults matching `dict.get`'s fallback. -/
structure BallResult where
  ball_num : Nat
  over_display : String
  striker : String
  bowler : String
  bat_move : Int
  bowl_move : Int
  runs : Int
  is_out : Bool
  is_four : Bool
  is_six : Bool
  innings_runs : Int
  innings_wickets : Nat
  innings_overs : String
  over_complete : Bool
  innings_complete : Bool
  target_chased : Bool
  milestone : Option Nat
  hat_trick : Bool
  needs_batter_choice : Bool := false
  needs_bowler_choice : Bool := false
  available_batters : Option (List PlayerOption) := none
  available_bowlers : Option (List PlayerOption) := none
deriving Repr, DecidableEq

/-- State of `Innings` (`innings.py`). -/
structure Innings where
  batting_side : List String
  bowling_side : List String
  total_overs : Nat
  total_wickets : Nat
  target : Option Int
  is_team_mode : Bool
  batting_cards : String → BattingCard
  striker_idx : Nat
  non_striker_idx : Option Nat
  wickets_fallen : Nat
  bowling_cards : String → BowlingCard
  current_bowler_idx : Nat
  overs_completed : Nat
  balls_in_over : Nat
  total_runs : Int
  ball_log : List BallResult
  is_complete : Bool
  last_batter_out : Option String
  last_bowler : Option String
  needs_batter_choice : Bool
  needs_bowler_choice : Bool

/-- `Innings.__init__`. -/
def Innings.init (batting_side bowling_side : List String)
    (total_overs total_wickets : Nat) (target : Option Int)
    (is_team_mode : Bool) : Innings where
  batting_side := batting_side
  bowling_side := bowling_side
  total_overs := total_overs
  total_wickets := total_wickets
  target := target
  is_team_mode := is_team_mode
  batting_cards := fun name => BattingCard.init name
  striker_idx := 0
  non_striker_idx := if batting_side.length > 1 then some 1 else none
  wickets_fallen := 0
  bowling_cards := fun name => BowlingCard.init name
  current_bowler_idx := 0
  overs_completed := 0
  balls_in_over := 0
  total_runs := 0
  ball_log := []
  is_complete := false
  last_batter_out := none
  last_bowler := none
  needs_batter_choice := is_team_mode && batting_side.length > 1
  needs_bowler_choice := is_team_mode && bowling_side.length > 1

instance : Inhabited Innings := ⟨Innings.init [] [] 0 0 none false⟩

/-- Update one key of a name-keyed card dict. -/
def updateCard {α : Type} (cards : String → α) (key : String) (f : α → α) :
    String → α :=
  fun name => if name = key then f (cards key) else cards name

/-- Property `Innings.striker`. -/
def Innings.striker (i : Innings) : String :=
  i.batting_side.getD i.striker_idx ""

/-- Property `Innings.non_striker`. -/
def Innings.non_striker (i : Innings) : Option String :=
  i.non_striker_idx.map (fun k => i.batting_side.getD k "")

/-- Property `Innings.current_bowler`. -/
def Innings.current_bowler (i : Innings) : String :=
  i.bowling_side.getD i.current_bowler_idx ""

/-- Property `Innings.overs_display`. -/
def Innings.overs_display (i : Innings) : String :=
  if i.balls_in_over = 0 then toString i.overs_completed
  else toString i.overs_completed ++ "." ++ toString i.balls_in_over

/-- `Innings.available_next_batters`. -/
def Innings.available_next_batters (i : Innings) : List PlayerOption :=
  let striker_name := i.batting_side.getD i.striker_idx ""
  let non_striker_name : Option String :=
    i.non_striker_idx.map (fun k => i.batting_side.getD k "")
  let options := i.batting_side.filterMap (fun name =>
    if !i.needs_batter_choice &&
        (name == striker_name || some name == non_striker_name) then
      none
    else
      let is_out := (i.batting_cards name).is_out
      let consecutive_blocked := some name == i.last_batter_out
      some { player := name, disabled := consecutive_blocked || is_out })
  if !options.isEmpty && options.all (fun o => o.disabled) then
    options.map (fun o =>
      if some o.player == i.last_batter_out then { o with disabled := false }
      else o)
  else
    options

/-- `Innings.available_next_bowlers`. -/
def Innings.available_next_bowlers (i : Innings) : List PlayerOption :=
  let options := i.bowling_side.map (fun name =>
    ({ player := name, disabled := some name == i.last_bowler } : PlayerOption))
  if options.length ≤ 1 || options.all (fun o => o.disabled) then
    options.map (fun o => { o with disabled := false })
  else
    options

/-- `Innings._rotate_strike`. -/
def Innings.rotate_strike (i : Innings) : Innings :=
  match i.non_striker_idx with
  | some ns => { i with striker_idx := ns, non_striker_idx := some i.striker_idx }
  | none => i

/-- `Innings._handle_wicket_fall`. -/
def Innings.handle_wicket_fall (i : Innings) (r : BallResult) :
    Innings × BallResult :=
  if i.total_wickets ≤ i.wickets_fallen then (i, r)
  else
    let out_batter := i.batting_side.getD i.striker_idx ""
    let i1 := { i with last_batter_out := some out_batter }
    let i2 :=
      match i1.non_striker_idx with
      | some ns => { i1 with striker_idx := ns, non_striker_idx := none }
      | none => i1
    if i2.is_team_mode && i2.batting_side.length > 1 then
      let i3 := { i2 with needs_batter_choice := true }
      (i3, { r with needs_batter_choice := true,
                    available_batters := some i3.available_next_batters })
    else
      let available := (List.range i2.batting_side.length).filter (fun k =>
        !(i2.batting_cards (i2.batting_side.getD k "")).is_out
          && k != i2.striker_idx
          && (i2.non_striker_idx == none || i2.non_striker_idx != some k))
      match available with
      | [] => (i2, r)
      | k :: _ => ({ i2 with non_striker_idx := some k }, r)

/-- `Innings._next_bowler`. -/
def Innings.next_bowler (i : Innings) (r : BallResult) : Innings × BallResult :=
  if i.is_team_mode && i.bowling_side.length > 1 then
    let i1 := { i with last_bowler := some i.current_bowler,
                       needs_bowler_choice := true }
    (i1, { r with needs_bowler_choice := true,
                  available_bowlers := some i1.available_next_bowlers })
  else if i.bowling_side.length > 1 then
    ({ i with current_bowler_idx :=
        (i.current_bowler_idx + 1) % i.bowling_side.length }, r)
  else
    (i, r)

/-- `Innings._check_innings_complete`.  Python's `if self.target and ...`
treats both `None` and `0` as "no target". -/
def Innings.check_innings_complete (i : Innings) : Bool :=
  if i.total_wickets ≤ i.wickets_fallen then true
  else if i.total_overs ≤ i.overs_completed ∧ i.balls_in_over = 0 then true
  else
    match i.target with
    | some t => if t ≠ 0 ∧ t ≤ i.total_runs then true else false
    | none => false

/-- The result dict as initialised at the top of `Innings.resolve_ball`
(lines 62-81 of `innings.py`). -/
def init_ball_result (i : Innings) (bat_move bowl_move : Int) : BallResult where
  ball_num := i.overs_completed * 6 + i.balls_in_over + 1
  over_display :=
    toString i.overs_completed ++ "." ++ toString (i.balls_in_over + 1)
  striker := i.striker
  bowler := i.current_bowler
  bat_move := bat_move
  bowl_move := bowl_move
  runs := 0
  is_out := false
  is_four := false
  is_six := false
  innings_runs := 0
  innings_wickets := 0
  innings_overs := ""
  over_complete := false
  innings_complete := false
  target_chased := false
  milestone := none
  hat_trick := false

/-- Lines 86-88 of `innings.py`: charge the ball to the striker's and
bowler's cards and to the over counter. -/
def charge_ball (i : Innings) (striker_name bowler_name : String) : Innings :=
  { i with
    batting_cards := updateCard i.batting_cards striker_name
      (fun c => { c with balls := c.balls + 1 })
    bowling_cards := updateCard i.bowling_cards bowler_name
      (fun c => { c with balls_bowled_in_over := c.balls_bowled_in_over + 1 })
    balls_in_over := i.balls_in_over + 1 }

/-- Lines 90-104 of `innings.py`: the `bat_move == bowl_move` wicket branch
(cards, wicket count, hat-trick detection, `_handle_wicket_fall`). -/
def resolve_wicket (i1 : Innings) (r0 : BallResult)
    (striker_name bowler_name : String) : Innings × BallResult :=
  let i2 := { i1 with
    batting_cards := updateCard i1.batting_cards striker_name
      (fun c => { c with is_out := true, dismissal := "b " ++ bowler_name })
    bowling_cards := updateCard i1.bowling_cards bowler_name
      (fun c => { c with wickets := c.wickets + 1 })
    wickets_fallen := i1.wickets_fallen + 1 }
  let hat_trick :=
    match i2.ball_log.reverse with
    | prev1 :: prev2 :: _ =>
      prev1.is_out && prev1.bowler == bowler_name
        && prev2.is_out && prev2.bowler == bowler_name
    | _ => false
  let r1 := { r0 with is_out := true, runs := 0, hat_trick := hat_trick }
  i2.handle_wicket_fall r1

/-- Lines 105-127 of `innings.py`: the scoring branch (runs, milestone,
four/six flags, strike rotation on 1 or 3). -/
def resolve_runs (i1 : Innings) (r0 : BallResult)
    (striker_name bowler_name : String) (bat_move bowl_move : Int) :
    Innings × BallResult :=
  let runs := if bat_move = 0 then bowl_move else bat_move
  let old_runs := (i1.batting_cards striker_name).runs
  let i2 := { i1 with
    batting_cards := updateCard i1.batting_cards striker_name
      (fun c => { c with runs := c.runs + runs })
    bowling_cards := updateCard i1.bowling_cards bowler_name
      (fun c => { c with runs_conceded := c.runs_conceded + runs })
    total_runs := i1.total_runs + runs }
  let milestone : Option Nat :=
    if old_runs < 50 ∧ 50 ≤ old_runs + runs then some 50
    else if old_runs < 100 ∧ 100 ≤ old_runs + runs then some 100
    else none
  let i3 :=
    if runs = 4 then
      { i2 with
        batting_cards := updateCard i2.batting_cards striker_name
          (fun c => { c with fours := c.fours + 1 }) }
    else if runs = 6 then
      { i2 with
        batting_cards := updateCard i2.batting_cards striker_name
          (fun c => { c with sixes := c.sixes + 1 }) }
    else i2
  let r1 := { r0 with runs := runs, milestone := milestone,
                      is_four := runs == 4, is_six := runs == 6 }
  let i4 := if runs = 1 ∨ runs = 3 then i3.rotate_strike else i3
  (i4, r1)

/-- Lines 129-136 of `innings.py`: over completion (bowler's over closed,
strike rotated, `_next_bowler`). -/
def resolve_over_end (p : Innings × BallResult) (bowler_name : String) :
    Innings × BallResult :=
  if 6 ≤ p.1.balls_in_over then
    let i6 := { p.1 with
      overs_completed := p.1.overs_completed + 1
      balls_in_over := 0
      bowling_cards := updateCard p.1.bowling_cards bowler_name
        (fun c => { c with overs_completed := c.overs_completed + 1,
                           balls_bowled_in_over := 0 }) }
    let i7 := i6.rotate_strike
    i7.next_bowler { p.2 with over_complete := true }
  else
    p

/-- Lines 138-149 of `innings.py`: fill the running totals into the result,
run the completion check, append to the ball log. -/
def resolve_finish (p : Innings × BallResult) : Innings × BallResult :=
  let i8 := p.1
  let r8 := { p.2 with
    innings_runs := i8.total_runs
    innings_wickets := i8.wickets_fallen
    innings_overs := i8.overs_display }
  if i8.check_innings_complete then
    let target_chased :=
      match i8.target with
      | some t => if t ≠ 0 ∧ t ≤ i8.total_runs then true else false
      | none => false
    let r9 := { r8 with innings_complete := true, target_chased := target_chased }
    ({ i8 with is_complete := true, ball_log := i8.ball_log ++ [r9] }, r9)
  else
    ({ i8 with ball_log := i8.ball_log ++ [r8] }, r8)

/-- Body of `Innings.resolve_ball` after the `is_complete` guard, as the
composition of the stages above. -/
def Innings.resolve_ball_core (i : Innings) (bat_move bowl_move : Int) :
    Innings × BallResult :=
  let striker_name := i.striker
  let bowler_name := i.current_bowler
  let r0 := init_ball_result i bat_move bowl_move
  let i1 := charge_ball i striker_name bowler_name
  resolve_finish (resolve_over_end
    (if bat_move = bowl_move then
      resolve_wicket i1 r0 striker_name bowler_name
    else
      resolve_runs i1 r0 striker_name bowler_name bat_move bowl_move)
    bowler_name)

/-- `Innings.resolve_ball`: early error return on a completed innings,
otherwise the core body. -/
def Innings.resolve_ball (i : Innings) (bat_move bowl_move : Int) :
    Innings × Except String BallResult :=
  if i.is_complete then
    (i, Except.error "Innings is already complete")
  else
    ((i.resolve_ball_core bat_move bowl_move).1,
      Except.ok (i.resolve_ball_core bat_move bowl_move).2)

/-- State of `Match` (`match.py`).  Fields that only matter for toss flow or
snapshots are omitted; everything the innings sequencing, result, NRR and
forfeit logic reads or writes is present. -/
structure MatchState where
  mode : String
  side_a : List String
  side_b : List String
  total_overs : Nat
  total_wickets : Nat
  batting_first : Option (List String)
  bowling_first : Option (List String)
  innings_1 : Option Innings
  innings_2 : Option Innings
  innings_3 : Option Innings
  innings_4 : Option Innings
  is_super_over : Bool
  super_over_round : Nat
  current_innings : Nat
  winner : Option String
  result_text : String
  is_finished : Bool
  nrr_locked : Bool

/-- Total runs of an optional innings slot (Python would raise on a missing
slot; the theorems below only use states where the slot is populated). -/
def optionalRuns (oi : Option Innings) : Int :=
  match oi with
  | some i => i.total_runs
  | none => 0

/-- `Match.start_innings_3`: the side that batted second (`bowling_first`)
bats first in the super over; 1 over, 2 wickets. -/
def MatchState.start_innings_3 (m : MatchState) : MatchState :=
  { m with
    is_super_over := true
    super_over_round := m.super_over_round + 1
    current_innings := 3
    innings_3 := some (Innings.init (m.bowling_first.getD [])
      (m.batting_first.getD []) 1 2 none (m.mode == "team")) }

/-- `Match.start_innings_4`: the side that batted first chases
`innings_3.total_runs + 1`; 1 over, 2 wickets. -/
def MatchState.start_innings_4 (m : MatchState) : MatchState :=
  { m with
    current_innings := 4
    innings_4 := some (Innings.init (m.batting_first.getD [])
      (m.bowling_first.getD []) 1 2
      (some (optionalRuns m.innings_3 + 1)) (m.mode == "team")) }

/-- Property `Match.active_innings`. -/
def MatchState.active_innings (m : MatchState) : Option Innings :=
  if m.current_innings = 1 then m.innings_1
  else if m.current_innings = 2 then m.innings_2
  else if m.current_innings = 3 then m.innings_3
  else if m.current_innings = 4 then m.innings_4
  else none

/-- `Match.determine_result` (the state mutations: winner, result text,
finished flag). -/
def MatchState.determine_result (m : MatchState) : MatchState :=
  let bat_first_label := String.intercalate ", " (m.batting_first.getD [])
  let bat_second_label := String.intercalate ", " (m.bowling_first.getD [])
  if !m.is_super_over then
    let s1 := optionalRuns m.innings_1
    let s2 := optionalRuns m.innings_2
    if s1 < s2 then
      let remaining_wickets : Int :=
        (m.total_wickets : Int) -
          ((m.innings_2.getD default).wickets_fallen : Int)
      { m with
        winner := some bat_second_label
        result_text := bat_second_label ++ " won by "
          ++ toString remaining_wickets ++ " wicket(s)"
        is_finished := true }
    else if s2 < s1 then
      { m with
        winner := some bat_first_label
        result_text := bat_first_label ++ " won by "
          ++ toString (s1 - s2) ++ " run(s)"
        is_finished := true }
    else
      { m with
        winner := some "TIE"
        result_text := "Match Tied!"
        is_finished := true }
  else
    let s3 := optionalRuns m.innings_3
    let s4 := optionalRuns m.innings_4
    if s3 < s4 then
      { m with
        winner := some bat_first_label
        result_text := "SUPER OVER: " ++ bat_first_label ++ " won!"
        is_finished := true }
    else if s4 < s3 then
      { m with
        winner := some bat_second_label
        result_text := "SUPER OVER: " ++ bat_second_label ++ " won!"
        is_finished := true }
    else
      { m with
        winner := some "TIE"
        result_text := "SUPER OVER TIED!"
        is_finished := true }

/-- `_official_overs_faced` inside `Match.get_nrr_data`. -/
def official_overs_faced (oi : Option Innings) : ℚ :=
  match oi with
  | none => 0
  | some innings =>
    let balls_faced : Nat := innings.overs_completed * 6 + innings.balls_in_over
    let full_quota_overs : ℚ := (innings.total_overs : ℚ)
    let actual_overs : ℚ := (balls_faced : ℚ) / 6
    if innings.total_wickets ≤ innings.wickets_fallen
        ∧ actual_overs < full_quota_overs then
      full_quota_overs
    else
      actual_overs

/-- The dict returned by `Match.get_nrr_data`. -/
structure NrrData where
  runs_scored_1 : Int
  overs_faced_1 : ℚ
  runs_scored_2 : Int
  overs_faced_2 : ℚ
  batting_first_player : Option String
deriving Repr, DecidableEq

/-- `Match.get_nrr_data`. -/
def MatchState.get_nrr_data (m : MatchState) : NrrData where
  runs_scored_1 := optionalRuns m.innings_1
  overs_faced_1 := official_overs_faced m.innings_1
  runs_scored_2 := optionalRuns m.innings_2
  overs_faced_2 := official_overs_faced m.innings_2
  batting_first_player := (m.batting_first.getD []).head?

/-- What `resolve_pending_ball` (`realtime/match/actions/ball.py`) does after
broadcasting a ball result, as a pure decision. -/
inductive PostBallAction where
  | continuePlay
  | startInnings2
  | startSuperOverInnings1
  | startSuperOverInnings2
  | matchOver
deriving Repr, DecidableEq

/-- The innings-sequencing decision of `resolve_pending_ball`, lines 101-230:
which innings (if any) is started next once a ball completes the active
innings.  `room_has_tournament` is the truthiness of `room.tournament` and
`phase` is `room.tournament.phase`. -/
def post_ball_action (m : MatchState) (room_has_tournament : Bool)
    (phase : String) (result_innings_complete : Bool) : PostBallAction :=
  if !result_innings_complete then .continuePlay
  else if m.current_innings = 1 then .startInnings2
  else if m.current_innings = 2
      ∧ optionalRuns m.innings_1 = optionalRuns m.innings_2
      ∧ room_has_tournament = true ∧ phase ≠ "group" then
    .startSuperOverInnings1
  else if m.current_innings = 3 then .startSuperOverInnings2
  else if m.current_innings = 4 ∧ room_has_tournament = true ∧ phase ≠ "group"
      ∧ m.innings_3.isSome
      ∧ optionalRuns m.innings_3 = optionalRuns m.innings_4 then
    .startSuperOverInnings1
  else .matchOver

/-- `MAX_AUTO_STRIKES` (`realtime/match/actions/timeouts.py`). -/
def MAX_AUTO_STRIKES : Nat := 3

/-- `_forfeit_match_for_non_response` (`realtime/match/actions/captain.py`),
restricted to its effect on the match object. -/
def forfeit_match_for_non_response (m : MatchState) (offender : String) :
    MatchState :=
  if m.is_finished then m
  else
    match (if offender ∈ m.side_a then some m.side_b
           else if offender ∈ m.side_b then some m.side_a
           else none) with
    | none => m
    | some winning_side =>
      let winner_label := String.intercalate ", " winning_side
      { m with
        winner := some winner_label
        result_text := winner_label ++ " won by forfeit (" ++ offender
          ++ " reached 3/3 auto-move warnings)"
        is_finished := true
        nrr_locked := true }

/-- Guard of `_forfeit_match_for_non_response`: the forfeit proceeds (and the
room's match reference is cleared) unless one of the early returns fires. -/
def forfeit_fires (m : MatchState) (offender : String) : Bool :=
  !m.is_finished && (offender ∈ m.side_a || offender ∈ m.side_b)

/-- The room state read and written by `_handle_auto_strike`: the per-user
strike counters and the (at most one) active match. -/
structure RoomState where
  auto_move_strikes : String → Nat
  cur_match : Option MatchState

/-- `_handle_auto_strike` (`realtime/match/actions/captain.py`).  Returns the
updated room plus, when a forfeit actually fired, the forfeited match object
(in Python that object is handed to persistence and then `room.match` is set
to `None`). -/
def handle_auto_strike (room : RoomState) (username role : String) :
    RoomState × Option MatchState :=
  let strikes := room.auto_move_strikes username + 1
  let room1 := { room with auto_move_strikes :=
    fun u => if u = username then strikes else room.auto_move_strikes u }
  if strikes < MAX_AUTO_STRIKES then (room1, none)
  else
    let innings :=
      match room1.cur_match with
      | some m => m.active_innings
      | none => none
    match innings with
    | none => (room1, none)
    | some _ =>
      if role = "captain_bat" ∨ role = "captain_bowl" then (room1, none)
      else if role = "bat" ∨ role = "bowl" then
        match room1.cur_match with
        | some m =>
          if forfeit_fires m username then
            ({ room1 with cur_match := none },
              some (forfeit_match_for_non_response m username))
          else
            (room1, none)
        | none => (room1, none)
      else (room1, none)

/-- The dict returned by `get_learning_phase`
(`cpu/cpu_strategy_engine.py`). -/
structure LearningPhaseInfo where
  phase : String
  global_weight : ℚ
  user_weight : ℚ
  confidence : ℚ
deriving Repr, DecidableEq

/-- `get_learning_phase` (`cpu/cpu_strategy_engine.py`). -/
def get_learning_phase (total_balls : Nat) : LearningPhaseInfo :=
  if total_balls < 60 then
    { phase := "global"
      global_weight := 1
      user_weight := 0
      confidence := min ((total_balls : ℚ) / 60) (3/10) }
  else if total_balls < 300 then
    let progress : ℚ := ((total_balls : ℚ) - 60) / 240
    { phase := "transition"
      global_weight := 7/10 - (4/10) * progress
      user_weight := 3/10 + (4/10) * progress
      confidence := 3/10 + (5/10) * progress }
  else
    let excess : ℚ := (total_balls : ℚ) - 300
    { phase := "personalized"
      global_weight := 2/10
      user_weight := 8/10
      confidence := min (8/10 + excess / 1000) (95/100) }

/-- Python's `round(x, 3)`: scale by 1000 and round half to even. -/
def round3 (q : ℚ) : ℚ :=
  let x : ℚ := 1000 * q
  let f : Int := ⌊x⌋
  let frac : ℚ := x - f
  let n : Int :=
    if frac < 1/2 then f
    else if 1/2 < frac then f + 1
    else if f % 2 = 0 then f else f + 1
  (n : ℚ) / 1000

/-- `calculate_learning_phase` (`cpu/cpu_learning_utils.py`). -/
def calculate_learning_phase (total_balls : Nat) : String × ℚ :=
  if total_balls < 60 then
    ("global", round3 (min ((total_balls : ℚ) / 60 * (3/10)) (3/10)))
  else if total_balls < 300 then
    let progress : ℚ := ((total_balls : ℚ) - 60) / 240
    ("transition", round3 (3/10 + progress * (4/10)))
  else
    let excess : ℚ := (total_balls : ℚ) - 300
    ("personalized",
      round3 (7/10 + (25/100) * (1 - (1 / (1 + excess / 200)))))

/-- `normalize_frequencies` (`cpu/cpu_learning_utils.py`). -/
def normalize_frequencies (freqs : List ℚ) : List ℚ :=
  let total := freqs.sum
  if total ≤ 0 then List.replicate 7 (1/7)
  else freqs.map (fun f => f / total)

/-- `exponential_moving_average_update` (`cpu/cpu_learning_utils.py`).
The Python loop writes slots `0..6` of a copy of `old_freqs`; on the
7-slot vectors the callers use this is the `List.range 7` map below. -/
def exponential_moving_average_update (old_freqs : List ℚ)
    (observed_move : Nat) (total_samples max_samples : Nat) :
    List ℚ × Nat :=
  let alpha : ℚ := 1 / ((min (total_samples + 1) max_samples : Nat) : ℚ)
  let new_freqs := (List.range 7).map (fun k =>
    if k = observed_move then
      old_freqs.getD k 0 * (1 - alpha) + alpha
    else
      old_freqs.getD k 0 * (1 - alpha))
  (normalize_frequencies new_freqs, total_samples + 1)

/-- `MAX_SAMPLES_GLOBAL` (`cpu/cpu_learning_utils.py`). -/
def MAX_SAMPLES_GLOBAL : Nat := 1000

/-- `MAX_SAMPLES_USER` (`cpu/cpu_learning_utils.py`). -/
def MAX_SAMPLES_USER : Nat := 500

/-- `MAX_SAMPLES_SITUATIONAL` (`cpu/cpu_learning_utils.py`). -/
def MAX_SAMPLES_SITUATIONAL : Nat := 200

/-- Concrete innings for examples: all out (5/5) after 9.3 of 10 overs. -/
def nrrExampleInnings1 : Innings :=
  { Innings.init ["A"] ["B"] 10 5 none false with
    overs_completed := 9, balls_in_over := 3, wickets_fallen := 5,
    total_runs := 50 }

/-- Concrete innings for examples: chase finished after 8.3 overs. -/
def nrrExampleInnings2 : Innings :=
  { Innings.init ["B"] ["A"] 10 5 (some 51) false with
    overs_completed := 8, balls_in_over := 3, total_runs := 51 }

/-- Concrete match for the C7 example. -/
def nrrExampleMatch : MatchState where
  mode := "quick"
  side_a := ["A"]
  side_b := ["B"]
  total_overs := 10
  total_wickets := 5
  batting_first := some ["A"]
  bowling_first := some ["B"]
  innings_1 := some nrrExampleInnings1
  innings_2 := some nrrExampleInnings2
  innings_3 := none
  innings_4 := none
  is_super_over := false
  super_over_round := 0
  current_innings := 2
  winner := none
  result_text := ""
  is_finished := false
  nrr_locked := false

/-- Concrete match for the C8 example. -/
def strikeExampleMatch : MatchState where
  mode := "quick"
  side_a := ["P1"]
  side_b := ["P2"]
  total_overs := 2
  total_wickets := 2
  batting_first := some ["P1"]
  bowling_first := some ["P2"]
  innings_1 := some (Innings.init ["P1"] ["P2"] 2 2 none false)
  innings_2 := none
  innings_3 := none
  innings_4 := none
  is_super_over := false
  super_over_round := 0
  current_innings := 1
  winner := none
  result_text := ""
  is_finished := false
  nrr_locked := false

/-- Concrete room for the C8 example: "P1" already has two strikes. -/
def strikeExampleRoom : RoomState where
  auto_move_strikes := fun u => if u = "P1" then 2 else 0
  cur_match := some strikeExampleMatch

/-- Concrete tied match (both main innings on 7) for the C6 analysis. -/
def tiedMatchExample : MatchState where
  mode := "quick"
  side_a := ["A"]
  side_b := ["B"]
  total_overs := 2
  total_wickets := 2
  batting_first := some ["A"]
  bowling_first := some ["B"]
  innings_1 := some { Innings.init ["A"] ["B"] 2 2 none false with
    total_runs := 7, is_complete := true }
  innings_2 := some { Innings.init ["B"] ["A"] 2 2 (some 8) false with
    total_runs := 7, is_complete := true }
  innings_3 := none
  innings_4 := none
  is_super_over := false
  super_over_round := 0
  current_innings := 2
  winner := none
  result_text := ""
  is_finished := false
  nrr_locked := false

/-! ## Helper lemmas: field preservation through the resolve stages -/

theorem handle_wicket_fall_snd_runs (i : Innings) (r : BallResult) :
    ((i.handle_wicket_fall r).2.runs = r.runs) := by
  unfold Innings.handle_wicket_fall
  dsimp only
  repeat' split
  all_goals rfl

theorem handle_wicket_fall_snd_is_out (i : Innings) (r : BallResult) :
    ((i.handle_wicket_fall r).2.is_out = r.is_out) := by
  unfold Innings.handle_wicket_fall
  dsimp only
  repeat' split
  all_goals rfl

theorem next_bowler_snd_runs (i : Innings) (r : BallResult) :
    ((i.next_bowler r).2.runs = r.runs) := by
  unfold Innings.next_bowler
  dsimp only
  repeat' split
  all_goals rfl

theorem next_bowler_snd_is_out (i : Innings) (r : BallResult) :
    ((i.next_bowler r).2.is_out = r.is_out) := by
  unfold Innings.next_bowler
  dsimp only
  repeat' split
  all_goals rfl

theorem resolve_wicket_snd_runs (i1 : Innings) (r0 : BallResult)
    (sn bn : String) : (resolve_wicket i1 r0 sn bn).2.runs = 0 := by
  simp only [resolve_wicket]
  rw [handle_wicket_fall_snd_runs]

theorem resolve_wicket_snd_is_out (i1 : Innings) (r0 : BallResult)
    (sn bn : String) : (resolve_wicket i1 r0 sn bn).2.is_out = true := by
  simp only [resolve_wicket]
  rw [handle_wicket_fall_snd_is_out]

theorem resolve_runs_snd_runs (i1 : Innings) (r0 : BallResult)
    (sn bn : String) (b w : Int) :
    (resolve_runs i1 r0 sn bn b w).2.runs = (if b = 0 then w else b) := rfl

theorem resolve_runs_snd_is_out (i1 : Innings) (r0 : BallResult)
    (sn bn : String) (b w : Int) :
    (resolve_runs i1 r0 sn bn b w).2.is_out = r0.is_out := rfl

theorem resolve_over_end_snd_runs (p : Innings × BallResult) (bn : String) :
    (resolve_over_end p bn).2.runs = p.2.runs := by
  unfold resolve_over_end
  dsimp only
  split
  · rw [next_bowler_snd_runs]
  · rfl

theorem resolve_over_end_snd_is_out (p : Innings × BallResult) (bn : String) :
    (resolve_over_end p bn).2.is_out = p.2.is_out := by
  unfold resolve_over_end
  dsimp only
  split
  · rw [next_bowler_snd_is_out]
  · rfl

theorem resolve_finish_snd_runs (p : Innings × BallResult) :
    (resolve_finish p).2.runs = p.2.runs := by
  unfold resolve_finish
  dsimp only
  split <;> rfl

theorem resolve_finish_snd_is_out (p : Innings × BallResult) :
    (resolve_finish p).2.is_out = p.2.is_out := by
  unfold resolve_finish
  dsimp only
  split <;> rfl

theorem resolve_ball_core_runs (i : Innings) (b w : Int) :
    (i.resolve_ball_core b w).2.runs =
      (if b = w then 0 else if b = 0 then w else b) := by
  unfold Innings.resolve_ball_core
  dsimp only
  rw [resolve_finish_snd_runs, resolve_over_end_snd_runs]
  by_cases hbw : b = w
  · simp [hbw, resolve_wicket_snd_runs]
  · simp [hbw, resolve_runs_snd_runs]

theorem resolve_ball_core_is_out (i : Innings) (b w : Int) :
    (i.resolve_ball_core b w).2.is_out = decide (b = w) := by
  unfold Innings.resolve_ball_core
  dsimp only
  rw [resolve_finish_snd_is_out, resolve_over_end_snd_is_out]
  by_cases hbw : b = w
  · simp [hbw, resolve_wicket_snd_is_out]
  · simp [hbw, resolve_runs_snd_is_out, init_ball_result]

/-! ## Claim theorems -/

/-- C1: for moves `b, w ∈ [0,6]` on a not-yet-complete innings,
`resolve_ball` returns a ball outcome (not an error) whose `is_out` flag is
set exactly when `b = w`, and whose runs are `0` on a wicket, `w` when
`b = 0`, and `b` otherwise (regardless of `w`). -/
theorem resolve_ball_delivery_rule (i : Innings) (b w : Int)
    (h : i.is_complete = false) (hb0 : 0 ≤ b) (hb6 : b ≤ 6)
    (hw0 : 0 ≤ w) (hw6 : w ≤ 6) :
    (i.resolve_ball b w).2 = Except.ok (i.resolve_ball_core b w).2 ∧
    (i.resolve_ball_core b w).2.is_out = decide (b = w) ∧
    (i.resolve_ball_core b w).2.runs =
      (if b = w then 0 else if b = 0 then w else b) := by
  refine ⟨?_, resolve_ball_core_is_out i b w, resolve_ball_core_runs i b w⟩
  simp [Innings.resolve_ball, h]

/-- Witness for C1 at a concrete innings and the move pair `(0, 5)`. -/
theorem resolve_ball_delivery_rule_witness :
    ((Innings.init ["A", "B"] ["C", "D"] 1 1 none false).resolve_ball 0 5).2 =
      Except.ok
        ((Innings.init ["A", "B"] ["C", "D"] 1 1 none false).resolve_ball_core
          0 5).2 ∧
    ((Innings.init ["A", "B"] ["C", "D"] 1 1 none false).resolve_ball_core
        0 5).2.is_out = decide ((0 : Int) = 5) ∧
    ((Innings.init ["A", "B"] ["C", "D"] 1 1 none false).resolve_ball_core
        0 5).2.runs =
      (if (0 : Int) = 5 then 0 else if (0 : Int) = 0 then 5 else 0) :=
  resolve_ball_delivery_rule (Innings.init ["A", "B"] ["C", "D"] 1 1 none false)
    0 5 rfl (by norm_num) (by norm_num) (by norm_num) (by norm_num)

/-- C10: calling `resolve_ball` on a completed innings returns the innings
unchanged (every field, ball log included) together with only an error
value; nothing is scored and nothing raises. -/
theorem resolve_ball_on_complete_innings (i : Innings) (b w : Int)
    (h : i.is_complete = true) :
    i.resolve_ball b w = (i, Except.error "Innings is already complete") := by
  simp [Innings.resolve_ball, h]

/-- Witness for C10 at a concrete completed innings and moves `(3, 4)`. -/
theorem resolve_ball_on_complete_innings_witness :
    ({ Innings.init ["A", "B"] ["C"] 2 2 none false with
        is_complete := true } : Innings).resolve_ball 3 4 =
      (({ Innings.init ["A", "B"] ["C"] 2 2 none false with
          is_complete := true } : Innings),
        Except.error "Innings is already complete") :=
  resolve_ball_on_complete_innings _ 3 4 rfl


theorem rotate_strike_is_complete (i : Innings) :
    i.rotate_strike.is_complete = i.is_complete := by
  unfold Innings.rotate_strike
  split <;> rfl

theorem rotate_strike_target (i : Innings) :
    i.rotate_strike.target = i.target := by
  unfold Innings.rotate_strike
  split <;> rfl

theorem handle_wicket_fall_fst_is_complete (i : Innings) (r : BallResult) :
    (i.handle_wicket_fall r).1.is_complete = i.is_complete := by
  unfold Innings.handle_wicket_fall
  dsimp only
  repeat' split
  all_goals rfl

theorem handle_wicket_fall_fst_target (i : Innings) (r : BallResult) :
    (i.handle_wicket_fall r).1.target = i.target := by
  unfold Innings.handle_wicket_fall
  dsimp only
  repeat' split
  all_goals rfl

theorem next_bowler_fst_is_complete (i : Innings) (r : BallResult) :
    (i.next_bowler r).1.is_complete = i.is_complete := by
  unfold Innings.next_bowler
  dsimp only
  repeat' split
  all_goals rfl

theorem next_bowler_fst_target (i : Innings) (r : BallResult) :
    (i.next_bowler r).1.target = i.target := by
  unfold Innings.next_bowler
  dsimp only
  repeat' split
  all_goals rfl

theorem resolve_wicket_fst_is_complete (i1 : Innings) (r0 : BallResult)
    (sn bn : String) :
    (resolve_wicket i1 r0 sn bn).1.is_complete = i1.is_complete := by
  simp only [resolve_wicket]
  rw [handle_wicket_fall_fst_is_complete]

theorem resolve_wicket_fst_target (i1 : Innings) (r0 : BallResult)
    (sn bn : String) :
    (resolve_wicket i1 r0 sn bn).1.target = i1.target := by
  simp only [resolve_wicket]
  rw [handle_wicket_fall_fst_target]

theorem resolve_runs_fst_is_complete (i1 : Innings) (r0 : BallResult)
    (sn bn : String) (b w : Int) :
    (resolve_runs i1 r0 sn bn b w).1.is_complete = i1.is_complete := by
  unfold resolve_runs
  dsimp only
  repeat' split
  all_goals simp [rotate_strike_is_complete]

theorem resolve_runs_fst_target (i1 : Innings) (r0 : BallResult)
    (sn bn : String) (b w : Int) :
    (resolve_runs i1 r0 sn bn b w).1.target = i1.target := by
  unfold resolve_runs
  dsimp only
  repeat' split
  all_goals simp [rotate_strike_target]

theorem resolve_over_end_fst_is_complete (p : Innings × BallResult)
    (bn : String) :
    (resolve_over_end p bn).1.is_complete = p.1.is_complete := by
  unfold resolve_over_end
  dsimp only
  split
  · rw [next_bowler_fst_is_complete, rotate_strike_is_complete]
  · rfl

theorem resolve_over_end_fst_target (p : Innings × BallResult)
    (bn : String) :
    (resolve_over_end p bn).1.target = p.1.target := by
  unfold resolve_over_end
  dsimp only
  split
  · rw [next_bowler_fst_target, rotate_strike_target]
  · rfl

theorem resolve_finish_fst_target (p : Innings × BallResult) :
    (resolve_finish p).1.target = p.1.target := by
  unfold resolve_finish
  dsimp only
  split <;> rfl

theorem resolve_finish_fst_check (p : Innings × BallResult) :
    Innings.check_innings_complete (resolve_finish p).1 =
      Innings.check_innings_complete p.1 := by
  unfold resolve_finish
  dsimp only
  split <;> rfl

theorem resolve_finish_fst_is_complete (p : Innings × BallResult) :
    (resolve_finish p).1.is_complete =
      (Innings.check_innings_complete p.1 || p.1.is_complete) := by
  unfold resolve_finish
  dsimp only
  split <;> simp_all

theorem resolve_ball_core_fst_target (i : Innings) (b w : Int) :
    (i.resolve_ball_core b w).1.target = i.target := by
  unfold Innings.resolve_ball_core
  dsimp only
  rw [resolve_finish_fst_target, resolve_over_end_fst_target]
  split
  · rw [resolve_wicket_fst_target]
    rfl
  · rw [resolve_runs_fst_target]
    rfl

theorem resolve_ball_core_fst_is_complete (i : Innings) (b w : Int)
    (h : i.is_complete = false) :
    (i.resolve_ball_core b w).1.is_complete =
      Innings.check_innings_complete (i.resolve_ball_core b w).1 := by
  unfold Innings.resolve_ball_core
  dsimp only
  rw [resolve_finish_fst_is_complete, resolve_finish_fst_check,
    resolve_over_end_fst_is_complete]
  have hb : (if b = w then
      resolve_wicket (charge_ball i i.striker i.current_bowler)
        (init_ball_result i b w) i.striker i.current_bowler
    else
      resolve_runs (charge_ball i i.striker i.current_bowler)
        (init_ball_result i b w) i.striker i.current_bowler b w).1.is_complete
      = false := by
    split
    · rw [resolve_wicket_fst_is_complete]; exact h
    · rw [resolve_runs_fst_is_complete]; exact h
  rw [hb]
  simp

theorem check_innings_complete_iff (j : Innings) (ht : j.target ≠ some 0) :
    j.check_innings_complete = true ↔
      (j.total_wickets ≤ j.wickets_fallen ∨
        (j.total_overs ≤ j.overs_completed ∧ j.balls_in_over = 0) ∨
        (∃ t, j.target = some t ∧ t ≤ j.total_runs)) := by
  unfold Innings.check_innings_complete
  rcases htar : j.target with _ | t
  · simp only [htar]
    split_ifs <;> simp_all
  · have ht2 : t ≠ 0 := by
      rintro rfl
      exact ht htar
    simp only [htar]
    split_ifs <;> simp_all



/-- C2: after a successfully resolved ball, the innings is complete iff
wickets are exhausted, or the overs quota is met with no partial over, or a
(nonzero) target is set and the total has reached it. -/
theorem innings_completion_rule (i : Innings) (b w : Int)
    (h : i.is_complete = false) (ht : i.target ≠ some 0) :
    ((i.resolve_ball b w).1.is_complete = true ↔
      ((i.resolve_ball b w).1.total_wickets ≤
          (i.resolve_ball b w).1.wickets_fallen ∨
        ((i.resolve_ball b w).1.total_overs ≤
            (i.resolve_ball b w).1.overs_completed ∧
          (i.resolve_ball b w).1.balls_in_over = 0) ∨
        (∃ t, (i.resolve_ball b w).1.target = some t ∧
          t ≤ (i.resolve_ball b w).1.total_runs))) := by
  have hrb : (i.resolve_ball b w).1 = (i.resolve_ball_core b w).1 := by
    simp [Innings.resolve_ball, h]
  rw [hrb, resolve_ball_core_fst_is_complete i b w h]
  refine check_innings_complete_iff _ ?_
  rw [resolve_ball_core_fst_target]
  exact ht

/-- Witness for C2: a 1-over 1-wicket innings where the ball `(3, 3)` takes
the only wicket and completes the innings. -/
theorem innings_completion_rule_witness :
    (((Innings.init ["A", "B"] ["C", "D"] 1 1 none false).resolve_ball
        3 3).1.is_complete = true ↔
      (((Innings.init ["A", "B"] ["C", "D"] 1 1 none false).resolve_ball
          3 3).1.total_wickets ≤
          ((Innings.init ["A", "B"] ["C", "D"] 1 1 none false).resolve_ball
            3 3).1.wickets_fallen ∨
        (((Innings.init ["A", "B"] ["C", "D"] 1 1 none false).resolve_ball
            3 3).1.total_overs ≤
            ((Innings.init ["A", "B"] ["C", "D"] 1 1 none false).resolve_ball
              3 3).1.overs_completed ∧
          ((Innings.init ["A", "B"] ["C", "D"] 1 1 none false).resolve_ball
            3 3).1.balls_in_over = 0) ∨
        (∃ t, ((Innings.init ["A", "B"] ["C", "D"] 1 1 none false).resolve_ball
            3 3).1.target = some t ∧
          t ≤ ((Innings.init ["A", "B"] ["C", "D"] 1 1 none false).resolve_ball
            3 3).1.total_runs))) :=
  innings_completion_rule (Innings.init ["A", "B"] ["C", "D"] 1 1 none false)
    3 3 rfl (by decide)



theorem rotate_strike_spec (j : Innings) (m : Nat)
    (hm : j.non_striker_idx = some m) :
    j.rotate_strike.striker_idx = m ∧
    j.rotate_strike.non_striker_idx = some j.striker_idx := by
  unfold Innings.rotate_strike
  split <;> simp_all

theorem rotate_strike_balls (j : Innings) :
    j.rotate_strike.balls_in_over = j.balls_in_over := by
  unfold Innings.rotate_strike
  split <;> rfl

theorem next_bowler_fst_striker (i : Innings) (r : BallResult) :
    (i.next_bowler r).1.striker_idx = i.striker_idx := by
  unfold Innings.next_bowler
  dsimp only
  repeat' split
  all_goals rfl

theorem next_bowler_fst_non_striker (i : Innings) (r : BallResult) :
    (i.next_bowler r).1.non_striker_idx = i.non_striker_idx := by
  unfold Innings.next_bowler
  dsimp only
  repeat' split
  all_goals rfl

theorem resolve_finish_fst_striker (p : Innings × BallResult) :
    (resolve_finish p).1.striker_idx = p.1.striker_idx := by
  unfold resolve_finish
  dsimp only
  split <;> rfl

theorem resolve_finish_fst_non_striker (p : Innings × BallResult) :
    (resolve_finish p).1.non_striker_idx = p.1.non_striker_idx := by
  unfold resolve_finish
  dsimp only
  split <;> rfl

theorem resolve_runs_fst_balls (i1 : Innings) (r0 : BallResult)
    (sn bn : String) (b w : Int) :
    (resolve_runs i1 r0 sn bn b w).1.balls_in_over = i1.balls_in_over := by
  unfold resolve_runs
  dsimp only
  repeat' split
  all_goals simp [rotate_strike_balls]

theorem resolve_runs_fst_striker_spec (i1 : Innings) (r0 : BallResult)
    (sn bn : String) (b w : Int) (m : Nat)
    (hm : i1.non_striker_idx = some m) :
    (((if b = 0 then w else b) = 1 ∨ (if b = 0 then w else b) = 3) →
      (resolve_runs i1 r0 sn bn b w).1.striker_idx = m ∧
      (resolve_runs i1 r0 sn bn b w).1.non_striker_idx =
        some i1.striker_idx) ∧
    ((¬((if b = 0 then w else b) = 1 ∨ (if b = 0 then w else b) = 3)) →
      (resolve_runs i1 r0 sn bn b w).1.striker_idx = i1.striker_idx ∧
      (resolve_runs i1 r0 sn bn b w).1.non_striker_idx = some m) := by
  constructor
  · intro h13
    unfold resolve_runs
    dsimp only
    rw [if_pos h13]
    have key : ∀ j : Innings, j.striker_idx = i1.striker_idx →
        j.non_striker_idx = i1.non_striker_idx →
        (j.rotate_strike.striker_idx = m ∧
          j.rotate_strike.non_striker_idx = some i1.striker_idx) := by
      intro j hj1 hj2
      have hrs := rotate_strike_spec j m (by rw [hj2]; exact hm)
      rw [hj1] at hrs
      exact hrs
    apply key
    · repeat' split
      all_goals rfl
    · repeat' split
      all_goals rfl
  · intro h13
    unfold resolve_runs
    dsimp only
    rw [if_neg h13]
    constructor
    · repeat' split
      all_goals rfl
    · refine Eq.trans ?_ hm
      repeat' split
      all_goals rfl


/-- C3 (amended): on a non-wicket ball with a non-striker at the crease, the
striker/non-striker pair swaps exactly when runs are 1 or 3 and the ball does
not complete the over, or when runs are 0/2/4/5/6 and the ball completes the
over; a 1-or-3-run ball that completes the over swaps twice, leaving the
pair unchanged.  (On a wicket the striker is replaced by wicket-fall
handling rather than rotation.) -/
theorem strike_rotation_rule (i : Innings) (b w : Int) (ns : Nat)
    (h : i.is_complete = false) (hbw : b ≠ w)
    (hns : i.non_striker_idx = some ns) :
    ((i.balls_in_over + 1 < 6) →
      ((((if b = 0 then w else b) = 1 ∨ (if b = 0 then w else b) = 3) →
          (i.resolve_ball b w).1.striker_idx = ns ∧
          (i.resolve_ball b w).1.non_striker_idx = some i.striker_idx) ∧
        ((¬((if b = 0 then w else b) = 1 ∨ (if b = 0 then w else b) = 3)) →
          (i.resolve_ball b w).1.striker_idx = i.striker_idx ∧
          (i.resolve_ball b w).1.non_striker_idx = some ns))) ∧
    ((i.balls_in_over + 1 = 6) →
      ((((if b = 0 then w else b) = 1 ∨ (if b = 0 then w else b) = 3) →
          (i.resolve_ball b w).1.striker_idx = i.striker_idx ∧
          (i.resolve_ball b w).1.non_striker_idx = some ns) ∧
        ((¬((if b = 0 then w else b) = 1 ∨ (if b = 0 then w else b) = 3)) →
          (i.resolve_ball b w).1.striker_idx = ns ∧
          (i.resolve_ball b w).1.non_striker_idx = some i.striker_idx))) := by
  have hrb : (i.resolve_ball b w).1 = (i.resolve_ball_core b w).1 := by
    simp [Innings.resolve_ball, h]
  rw [hrb]
  unfold Innings.resolve_ball_core
  dsimp only
  rw [if_neg hbw]
  rw [resolve_finish_fst_striker, resolve_finish_fst_non_striker]
  set q := resolve_runs (charge_ball i i.striker i.current_bowler)
    (init_ball_result i b w) i.striker i.current_bowler b w with hqdef
  have hqb : q.1.balls_in_over = i.balls_in_over + 1 := by
    rw [hqdef]
    exact resolve_runs_fst_balls _ _ _ _ _ _
  have hspec := resolve_runs_fst_striker_spec
    (charge_ball i i.striker i.current_bowler) (init_ball_result i b w)
    i.striker i.current_bowler b w ns hns
  rw [← hqdef] at hspec
  constructor
  · intro hlt
    have hcond : ¬(6 ≤ q.1.balls_in_over) := by
      rw [hqb]
      omega
    unfold resolve_over_end
    dsimp only
    rw [if_neg hcond]
    exact hspec
  · intro heq
    have hcond : 6 ≤ q.1.balls_in_over := by
      rw [hqb]
      omega
    unfold resolve_over_end
    dsimp only
    rw [if_pos hcond]
    rw [next_bowler_fst_striker, next_bowler_fst_non_striker]
    constructor
    · intro h13
      obtain ⟨hs, hn⟩ := hspec.1 h13
      have key1 : ∀ j : Innings, j.striker_idx = q.1.striker_idx →
          j.non_striker_idx = q.1.non_striker_idx →
          (j.rotate_strike.striker_idx = i.striker_idx ∧
            j.rotate_strike.non_striker_idx = some ns) := by
        intro j hj1 hj2
        have hrs := rotate_strike_spec j i.striker_idx (by rw [hj2]; exact hn)
        exact ⟨hrs.1, by rw [hrs.2, hj1, hs]⟩
      apply key1 <;> rfl
    · intro h13
      obtain ⟨hs, hn⟩ := hspec.2 h13
      have key2 : ∀ j : Innings, j.striker_idx = q.1.striker_idx →
          j.non_striker_idx = q.1.non_striker_idx →
          (j.rotate_strike.striker_idx = ns ∧
            j.rotate_strike.non_striker_idx = some i.striker_idx) := by
        intro j hj1 hj2
        have hrs := rotate_strike_spec j ns (by rw [hj2]; exact hn)
        refine ⟨hrs.1, ?_⟩
        rw [hrs.2, hj1, hs]
        rfl
      apply key2 <;> rfl



/-- C3 counterexample to the claim as stated: on the sixth ball of an over
scoring 2 runs (no wicket), the striker and non-striker do swap. -/
theorem strike_rotation_claim_counterexample :
    (({ Innings.init ["A", "B"] ["C"] 2 2 none false with
        balls_in_over := 5 } : Innings).resolve_ball 2 4).2.toOption.map
        (fun r => (r.runs, r.is_out)) = some (2, false) ∧
    ({ Innings.init ["A", "B"] ["C"] 2 2 none false with
        balls_in_over := 5 } : Innings).striker_idx = 0 ∧
    ({ Innings.init ["A", "B"] ["C"] 2 2 none false with
        balls_in_over := 5 } : Innings).non_striker_idx = some 1 ∧
    (({ Innings.init ["A", "B"] ["C"] 2 2 none false with
        balls_in_over := 5 } : Innings).resolve_ball 2 4).1.striker_idx = 1 ∧
    (({ Innings.init ["A", "B"] ["C"] 2 2 none false with
        balls_in_over := 5 } : Innings).resolve_ball 2 4).1.non_striker_idx =
      some 0 := by
  refine ⟨?_, rfl, rfl, rfl, rfl⟩
  rfl

/-- Witness for the amended C3 at a concrete innings: first ball of an over,
1 run, the strike rotates. -/
theorem strike_rotation_rule_witness :
    ((Innings.init ["A", "B"] ["C"] 2 2 none false).resolve_ball
        1 2).1.striker_idx = 1 ∧
    ((Innings.init ["A", "B"] ["C"] 2 2 none false).resolve_ball
        1 2).1.non_striker_idx = some 0 := by
  have hmain := strike_rotation_rule
    (Innings.init ["A", "B"] ["C"] 2 2 none false) 1 2 1 rfl
    (by norm_num) rfl
  have hb : (Innings.init ["A", "B"] ["C"] 2 2 none
      false).balls_in_over + 1 < 6 := by decide
  exact (hmain.1 hb).1 (Or.inl (by norm_num))


theorem exists_enabled_after_force (opts : List PlayerOption)
    (lbo : Option String)
    (h : match lbo with
      | some p => ∃ o ∈ opts, o.player = p
      | none => ∃ o ∈ opts, o.disabled = false) :
    ∃ o2 ∈ (if !opts.isEmpty && opts.all (fun o => o.disabled) then
        opts.map (fun o =>
          if some o.player == lbo then { o with disabled := false } else o)
      else opts), o2.disabled = false := by
  by_cases hc : (!opts.isEmpty && opts.all (fun o => o.disabled)) = true
  · rw [if_pos hc]
    rcases lbo with _ | p
    · obtain ⟨o, ho, hdis⟩ := h
      have hall := ((Bool.and_eq_true _ _).mp hc).2
      have := List.all_eq_true.mp hall o ho
      simp [hdis] at this
    · obtain ⟨o, ho, hp⟩ := h
      refine ⟨if some o.player == some p then { o with disabled := false }
          else o, List.mem_map_of_mem _ ho, ?_⟩
      simp [hp]
  · rw [if_neg hc]
    by_cases hemp : opts.isEmpty = true
    · rw [List.isEmpty_iff.mp hemp] at h
      rcases lbo with _ | p <;> simp_all
    · have hall : ¬ opts.all (fun o => o.disabled) = true := by
        intro hall
        refine hc ?_
        rw [Bool.and_eq_true]
        refine ⟨?_, hall⟩
        simp [Bool.not_eq_true'] at hemp ⊢
        exact hemp
      simp only [List.all_eq_true, not_forall] at hall
      obtain ⟨o, ho, hdis⟩ := hall
      exact ⟨o, ho, by simpa using hdis⟩



theorem available_next_batters_has_enabled (i : Innings)
    (hneeds : i.needs_batter_choice = true)
    (hsome : ∀ p, i.last_batter_out = some p → p ∈ i.batting_side)
    (hnone : i.last_batter_out = none →
      ∃ nm ∈ i.batting_side, (i.batting_cards nm).is_out = false) :
    ∃ o ∈ i.available_next_batters, o.disabled = false := by
  unfold Innings.available_next_batters
  dsimp only
  apply exists_enabled_after_force
  rcases hlbo : i.last_batter_out with _ | p
  · obtain ⟨nm, hnm, hout⟩ := hnone hlbo
    refine ⟨⟨nm, (some nm == (none : Option String))
        || (i.batting_cards nm).is_out⟩, ?_, ?_⟩
    · apply List.mem_filterMap.mpr
      refine ⟨nm, hnm, ?_⟩
      simp only [hneeds]
      rfl
    · simp [hout]
  · obtain hp := hsome p hlbo
    refine ⟨⟨p, (some p == some p)
        || (i.batting_cards p).is_out⟩, ?_, rfl⟩
    apply List.mem_filterMap.mpr
    refine ⟨p, hp, ?_⟩
    simp only [hneeds]
    rfl

theorem available_next_bowlers_has_enabled (i : Innings)
    (hne : i.bowling_side ≠ []) :
    ∃ o ∈ i.available_next_bowlers, o.disabled = false := by
  unfold Innings.available_next_bowlers
  dsimp only
  obtain ⟨nm, hmem⟩ : ∃ nm, nm ∈ i.bowling_side :=
    List.exists_mem_of_ne_nil _ hne
  by_cases hc : (decide ((i.bowling_side.map (fun name =>
      ({ player := name, disabled := some name == i.last_bowler } :
        PlayerOption))).length ≤ 1)
      || (i.bowling_side.map (fun name =>
        ({ player := name, disabled := some name == i.last_bowler } :
          PlayerOption))).all (fun o => o.disabled)) = true
  · rw [if_pos hc]
    refine ⟨⟨nm, false⟩, ?_, rfl⟩
    apply List.mem_map.mpr
    refine ⟨⟨nm, some nm == i.last_bowler⟩, ?_, rfl⟩
    exact List.mem_map_of_mem _ hmem
  · rw [if_neg hc]
    have hnall : ¬ ((i.bowling_side.map (fun name =>
        ({ player := name, disabled := some name == i.last_bowler } :
          PlayerOption))).all (fun o => o.disabled)) = true := by
      intro h2
      exact hc (by simp [h2])
    simp only [List.all_eq_true, not_forall] at hnall
    obtain ⟨o, ho, hdis⟩ := hnall
    exact ⟨o, ho, by simpa using hdis⟩



/-- C9: the candidate lists never come back non-empty with every option
disabled.  For `available_next_batters` this holds in every state the code
calls it in (a pending batter choice, with the recorded last-out batter a
member of the batting side, or no wicket recorded yet and hence someone not
out); for `available_next_bowlers` it holds for every non-empty bowling
side. -/
theorem candidate_lists_have_enabled_option :
    (∀ i : Innings, i.needs_batter_choice = true →
      (∀ p, i.last_batter_out = some p → p ∈ i.batting_side) →
      (i.last_batter_out = none →
        ∃ nm ∈ i.batting_side, (i.batting_cards nm).is_out = false) →
      ∃ o ∈ i.available_next_batters, o.disabled = false) ∧
    (∀ i : Innings, i.bowling_side ≠ [] →
      ∃ o ∈ i.available_next_bowlers, o.disabled = false) :=
  ⟨available_next_batters_has_enabled, available_next_bowlers_has_enabled⟩

/-- Witness for C9: a team-mode innings where batter "A" has just been
dismissed, and a two-bowler side. -/
theorem candidate_lists_have_enabled_option_witness :
    (∃ o ∈ ({ Innings.init ["A", "B"] ["C", "D"] 2 2 none true with
        last_batter_out := some "A" } : Innings).available_next_batters,
      o.disabled = false) ∧
    (∃ o ∈ (Innings.init ["A", "B"] ["C", "D"] 2 2 none
        true).available_next_bowlers, o.disabled = false) := by
  constructor
  · apply candidate_lists_have_enabled_option.1 _ rfl
    · intro p hp
      injection hp with h
      subst h
      decide
    · intro h
      exact Option.noConfusion h
  · apply candidate_lists_have_enabled_option.2
    decide



theorem official_overs_faced_spec (inn : Innings) :
    official_overs_faced (some inn) =
      (if inn.total_wickets ≤ inn.wickets_fallen ∧
          inn.overs_completed * 6 + inn.balls_in_over < 6 * inn.total_overs
        then (inn.total_overs : ℚ)
        else ((inn.overs_completed * 6 + inn.balls_in_over : Nat) : ℚ) / 6) := by
  unfold official_overs_faced
  dsimp only
  have hiff : (((inn.overs_completed * 6 + inn.balls_in_over : Nat) : ℚ) / 6 <
      (inn.total_overs : ℚ)) ↔
      inn.overs_completed * 6 + inn.balls_in_over < 6 * inn.total_overs := by
    rw [div_lt_iff₀ (by norm_num : (0 : ℚ) < 6)]
    rw [show ((inn.total_overs : ℚ) * 6) = ((6 * inn.total_overs : Nat) : ℚ)
      from by push_cast; ring]
    exact Nat.cast_lt
  rw [if_congr (and_congr Iff.rfl hiff) rfl rfl]

/-- C7: the NRR overs-faced that `get_nrr_data` reports for each innings is
the full overs quota when the side was all out before its quota was used up
(balls faced short of `6 * total_overs`), and the actual balls faced divided
by 6 otherwise. -/
theorem nrr_overs_faced_rule (m : MatchState) (inn1 inn2 : Innings)
    (h1 : m.innings_1 = some inn1) (h2 : m.innings_2 = some inn2) :
    (m.get_nrr_data.overs_faced_1 =
      (if inn1.total_wickets ≤ inn1.wickets_fallen ∧
          inn1.overs_completed * 6 + inn1.balls_in_over < 6 * inn1.total_overs
        then (inn1.total_overs : ℚ)
        else ((inn1.overs_completed * 6 + inn1.balls_in_over : Nat) : ℚ) / 6)) ∧
    (m.get_nrr_data.overs_faced_2 =
      (if inn2.total_wickets ≤ inn2.wickets_fallen ∧
          inn2.overs_completed * 6 + inn2.balls_in_over < 6 * inn2.total_overs
        then (inn2.total_overs : ℚ)
        else ((inn2.overs_completed * 6 + inn2.balls_in_over : Nat) : ℚ) / 6)) := by
  unfold MatchState.get_nrr_data
  dsimp only
  rw [h1, h2]
  exact ⟨official_overs_faced_spec inn1, official_overs_faced_spec inn2⟩

/-- Witness for C7, mirroring the spec's end-to-end example: side one all
out (5/5 wickets) after 9.3 of 10 overs is rated at the full quota 10; side
two chasing for 8.3 overs with wickets in hand is rated at 8.5 overs. -/
theorem nrr_overs_faced_rule_witness :
    nrrExampleMatch.get_nrr_data.overs_faced_1 = (10 : ℚ) ∧
    nrrExampleMatch.get_nrr_data.overs_faced_2 = (17 / 2 : ℚ) := by
  obtain ⟨hx, hy⟩ := nrr_overs_faced_rule nrrExampleMatch nrrExampleInnings1
    nrrExampleInnings2 rfl rfl
  refine ⟨?_, ?_⟩
  · rw [hx]
    norm_num [nrrExampleInnings1, Innings.init]
  · rw [hy]
    norm_num [nrrExampleInnings2, Innings.init]


theorem forfeit_spec (m : MatchState) (u : String)
    (hfin : m.is_finished = false)
    (huab : u ∈ m.side_a ∨ u ∈ m.side_b) :
    (forfeit_match_for_non_response m u).is_finished = true ∧
    (forfeit_match_for_non_response m u).nrr_locked = true ∧
    (forfeit_match_for_non_response m u).winner =
      some (String.intercalate ", "
        (if u ∈ m.side_a then m.side_b else m.side_a)) := by
  unfold forfeit_match_for_non_response
  rw [hfin]
  by_cases hua : u ∈ m.side_a
  · simp [hua]
  · rcases huab with hu | hu
    · exact absurd hu hua
    · simp [hua, hu]

/-- C8: a third auto-move strike in a ball-pick role ("bat"/"bowl"), with a
live match and active innings, forfeits the match to the opposing side and
marks it NRR-exempt (the room's match reference is cleared and the
forfeited match object is handed to persistence); a strike in a
captain-pick role never forfeits, whatever the count. -/
theorem auto_strike_forfeit_rule :
    (∀ (room : RoomState) (u role : String) (m : MatchState),
      room.auto_move_strikes u = 2 →
      room.cur_match = some m →
      m.active_innings.isSome = true →
      m.is_finished = false →
      (u ∈ m.side_a ∨ u ∈ m.side_b) →
      (role = "bat" ∨ role = "bowl") →
      ∃ fm, (handle_auto_strike room u role).2 = some fm ∧
        (handle_auto_strike room u role).1.cur_match = none ∧
        fm.is_finished = true ∧ fm.nrr_locked = true ∧
        fm.winner = some (String.intercalate ", "
          (if u ∈ m.side_a then m.side_b else m.side_a))) ∧
    (∀ (room : RoomState) (u role : String),
      (role = "captain_bat" ∨ role = "captain_bowl") →
      (handle_auto_strike room u role).1.cur_match = room.cur_match ∧
      (handle_auto_strike room u role).2 = none) := by
  constructor
  · intro room u role m hstr hcm hinn hfin huab hrole
    obtain ⟨inn, hinn2⟩ := Option.isSome_iff_exists.mp hinn
    have hfires : forfeit_fires m u = true := by
      unfold forfeit_fires
      rcases huab with hu | hu <;> simp [hfin, hu]
    have hrole2 : ¬(role = "captain_bat" ∨ role = "captain_bowl") := by
      rcases hrole with hr | hr <;> subst hr <;> simp
    have hshape : handle_auto_strike room u role =
        (({ auto_move_strikes := fun x =>
              if x = u then room.auto_move_strikes u + 1
              else room.auto_move_strikes x
            cur_match := none } : RoomState),
          some (forfeit_match_for_non_response m u)) := by
      unfold handle_auto_strike
      dsimp only
      have hnlt : ¬(room.auto_move_strikes u + 1 < MAX_AUTO_STRIKES) := by
        rw [hstr]
        norm_num [MAX_AUTO_STRIKES]
      rw [if_neg hnlt, hcm]
      dsimp only
      rw [hinn2]
      dsimp only
      rw [if_neg hrole2, if_pos hrole, if_pos hfires]
    have hfor := forfeit_spec m u hfin huab
    exact ⟨forfeit_match_for_non_response m u, by rw [hshape],
      by rw [hshape], hfor.1, hfor.2.1, hfor.2.2⟩
  · intro room u role hrole
    unfold handle_auto_strike
    dsimp only
    by_cases hlt : room.auto_move_strikes u + 1 < MAX_AUTO_STRIKES
    · rw [if_pos hlt]
      exact ⟨rfl, rfl⟩
    · rw [if_neg hlt]
      rcases hcm : room.cur_match with _ | m
      · exact ⟨rfl, rfl⟩
      · dsimp only
        rcases hai : m.active_innings with _ | inn
        · exact ⟨rfl, rfl⟩
        · dsimp only
          rw [if_pos hrole]
          exact ⟨rfl, rfl⟩


/-- Witness for C8: player "P1" of side A with two prior strikes times out
on a "bat" pick (forfeit) and, independently, on a "captain_bat" pick
(no forfeit). -/
theorem auto_strike_forfeit_rule_witness :
    (∃ fm, (handle_auto_strike strikeExampleRoom "P1" "bat").2 = some fm ∧
      (handle_auto_strike strikeExampleRoom "P1" "bat").1.cur_match = none ∧
      fm.is_finished = true ∧ fm.nrr_locked = true ∧
      fm.winner = some (String.intercalate ", "
        (if "P1" ∈ strikeExampleMatch.side_a then strikeExampleMatch.side_b
          else strikeExampleMatch.side_a))) ∧
    ((handle_auto_strike strikeExampleRoom "P1" "captain_bat").1.cur_match =
      strikeExampleRoom.cur_match ∧
      (handle_auto_strike strikeExampleRoom "P1" "captain_bat").2 = none) :=
  ⟨auto_strike_forfeit_rule.1 strikeExampleRoom "P1" "bat" strikeExampleMatch
      (by norm_num [strikeExampleRoom]) rfl rfl rfl (Or.inl (by decide))
      (Or.inl rfl),
    auto_strike_forfeit_rule.2 strikeExampleRoom "P1" "captain_bat"
      (Or.inl rfl)⟩



/-- C6 counterexample to the claim as stated: the two main innings end with
equal totals, yet with no tournament (and likewise in a tournament group
phase) `resolve_pending_ball` goes to `determine_result` — the match ends as
a tie and no super-over innings is started. -/
theorem super_over_claim_counterexample :
    post_ball_action tiedMatchExample false "semifinal" true =
      PostBallAction.matchOver ∧
    post_ball_action tiedMatchExample true "group" true =
      PostBallAction.matchOver ∧
    PostBallAction.matchOver ≠ PostBallAction.startSuperOverInnings1 ∧
    tiedMatchExample.determine_result.winner = some "TIE" ∧
    tiedMatchExample.determine_result.is_finished = true ∧
    tiedMatchExample.determine_result.innings_3 = none := by
  refine ⟨rfl, rfl, by decide, ?_, ?_, rfl⟩ <;> rfl

/-- C6 (amended): in a tournament match outside the group phase, equal main
innings totals start a super-over pair — 1 over, 2 wickets each, batting
order reversed (the side that batted second bats first) — and a tied super
over re-triggers another super-over round; outside tournaments or in the
group phase the tie stands as the final result. -/
theorem super_over_rule :
    (∀ (m : MatchState) (phase : String),
      m.current_innings = 2 →
      optionalRuns m.innings_1 = optionalRuns m.innings_2 →
      phase ≠ "group" →
      post_ball_action m true phase true =
        PostBallAction.startSuperOverInnings1) ∧
    (∀ (m : MatchState) (bf bt : List String),
      m.bowling_first = some bf → m.batting_first = some bt →
      ∃ inn3, m.start_innings_3.innings_3 = some inn3 ∧
        inn3.total_overs = 1 ∧ inn3.total_wickets = 2 ∧
        inn3.batting_side = bf ∧ inn3.bowling_side = bt ∧
        m.start_innings_3.current_innings = 3 ∧
        m.start_innings_3.is_super_over = true ∧
        m.start_innings_3.super_over_round = m.super_over_round + 1) ∧
    (∀ (m : MatchState) (tourn : Bool) (phase : String),
      m.current_innings = 3 →
      post_ball_action m tourn phase true =
        PostBallAction.startSuperOverInnings2) ∧
    (∀ (m : MatchState) (bf bt : List String),
      m.bowling_first = some bf → m.batting_first = some bt →
      ∃ inn4, m.start_innings_4.innings_4 = some inn4 ∧
        inn4.total_overs = 1 ∧ inn4.total_wickets = 2 ∧
        inn4.batting_side = bt ∧ inn4.bowling_side = bf ∧
        inn4.target = some (optionalRuns m.innings_3 + 1) ∧
        m.start_innings_4.current_innings = 4) ∧
    (∀ (m : MatchState) (phase : String),
      m.current_innings = 4 →
      m.innings_3.isSome = true →
      optionalRuns m.innings_3 = optionalRuns m.innings_4 →
      phase ≠ "group" →
      post_ball_action m true phase true =
        PostBallAction.startSuperOverInnings1) := by
  refine ⟨?_, ?_, ?_, ?_, ?_⟩
  · intro m phase h2 htie hphase
    unfold post_ball_action
    simp [h2, htie, hphase]
  · intro m bf bt hbf hbt
    refine ⟨_, rfl, rfl, rfl, ?_, ?_, rfl, rfl, rfl⟩
    · rw [hbf]
      rfl
    · rw [hbt]
      rfl
  · intro m tourn phase h3
    unfold post_ball_action
    simp [h3]
  · intro m bf bt hbf hbt
    refine ⟨_, rfl, rfl, rfl, ?_, ?_, rfl, rfl⟩
    · rw [hbt]
      rfl
    · rw [hbf]
      rfl
  · intro m phase h4 hsome htie hphase
    unfold post_ball_action
    simp [h4, htie, hphase, hsome]



/-- Witness for the amended C6: the tied example match in a tournament
knockout phase starts the super over, and `start_innings_3` builds the
1-over 2-wicket innings with the batting order reversed. -/
theorem super_over_rule_witness :
    post_ball_action tiedMatchExample true "semifinal" true =
      PostBallAction.startSuperOverInnings1 ∧
    (∃ inn3, tiedMatchExample.start_innings_3.innings_3 = some inn3 ∧
      inn3.total_overs = 1 ∧ inn3.total_wickets = 2 ∧
      inn3.batting_side = ["B"] ∧ inn3.bowling_side = ["A"] ∧
      tiedMatchExample.start_innings_3.current_innings = 3 ∧
      tiedMatchExample.start_innings_3.is_super_over = true ∧
      tiedMatchExample.start_innings_3.super_over_round =
        tiedMatchExample.super_over_round + 1) := by
  constructor
  · exact super_over_rule.1 tiedMatchExample "semifinal" rfl rfl (by decide)
  · exact super_over_rule.2.1 tiedMatchExample ["B"] ["A"] rfl rfl



/-- C4 counterexample to the claim as stated: in the global phase,
`get_learning_phase`'s confidence `min(n/60, 0.3)` saturates at 18 balls,
so it is not strictly increasing between 18 and 19 balls. -/
theorem learning_phase_strict_confidence_counterexample :
    (get_learning_phase 18).phase = "global" ∧
    (get_learning_phase 19).phase = "global" ∧
    (18 : Nat) < 19 ∧
    (get_learning_phase 18).confidence = (get_learning_phase 19).confidence ∧
    (get_learning_phase 18).confidence = 3 / 10 := by
  refine ⟨rfl, rfl, by norm_num, ?_, ?_⟩ <;>
    norm_num [get_learning_phase]

/-- C4 (amended): the phase boundaries are as claimed for both
`get_learning_phase` and `calculate_learning_phase` (59 balls is global, 60
and 299 transition, 300 personalized), and `get_learning_phase`'s confidence
is non-decreasing within each phase — strictly increasing throughout the
transition phase, but constant at its caps inside the global phase (0.3
from 18 balls) and the personalized phase (0.95 from 450 balls). -/
theorem learning_phase_rule :
    ((get_learning_phase 59).phase = "global" ∧
      (get_learning_phase 60).phase = "transition" ∧
      (get_learning_phase 299).phase = "transition" ∧
      (get_learning_phase 300).phase = "personalized" ∧
      (calculate_learning_phase 59).1 = "global" ∧
      (calculate_learning_phase 60).1 = "transition" ∧
      (calculate_learning_phase 299).1 = "transition" ∧
      (calculate_learning_phase 300).1 = "personalized") ∧
    (∀ n, n < 60 → (get_learning_phase n).phase = "global") ∧
    (∀ n, 60 ≤ n → n < 300 → (get_learning_phase n).phase = "transition") ∧
    (∀ n, 300 ≤ n → (get_learning_phase n).phase = "personalized") ∧
    (∀ n m, n ≤ m → m < 60 →
      (get_learning_phase n).confidence ≤ (get_learning_phase m).confidence) ∧
    (∀ n m, 60 ≤ n → n < m → m < 300 →
      (get_learning_phase n).confidence < (get_learning_phase m).confidence) ∧
    (∀ n m, 300 ≤ n → n ≤ m →
      (get_learning_phase n).confidence ≤ (get_learning_phase m).confidence) := by
  refine ⟨⟨rfl, rfl, rfl, rfl, rfl, rfl, rfl, rfl⟩, ?_, ?_, ?_, ?_, ?_, ?_⟩
  · intro n h
    simp [get_learning_phase, h]
  · intro n h60 h300
    simp [get_learning_phase, show ¬ n < 60 from by omega, h300]
  · intro n h300
    simp [get_learning_phase, show ¬ n < 60 from by omega,
      show ¬ n < 300 from by omega]
  · intro n m hnm hm60
    have hn60 : n < 60 := lt_of_le_of_lt hnm hm60
    simp only [get_learning_phase, if_pos hn60, if_pos hm60]
    refine min_le_min ?_ le_rfl
    have hc : (n : ℚ) ≤ (m : ℚ) := by exact_mod_cast hnm
    linarith
  · intro n m h60 hnm hm300
    have hn300 : n < 300 := hnm.trans hm300
    have hn60 : ¬ n < 60 := by omega
    have hm60 : ¬ m < 60 := by omega
    simp only [get_learning_phase, if_neg hn60, if_pos hn300, if_neg hm60,
      if_pos hm300]
    have hc : (n : ℚ) < (m : ℚ) := by exact_mod_cast hnm
    linarith
  · intro n m h300 hnm
    have hn60 : ¬ n < 60 := by omega
    have hn300 : ¬ n < 300 := by omega
    have hm60 : ¬ m < 60 := by omega
    have hm300 : ¬ m < 300 := by omega
    simp only [get_learning_phase, if_neg hn60, if_neg hn300, if_neg hm60,
      if_neg hm300]
    refine min_le_min ?_ le_rfl
    have hc : (n : ℚ) ≤ (m : ℚ) := by exact_mod_cast hnm
    linarith

/-- Witness for the amended C4 at concrete ball counts. -/
theorem learning_phase_rule_witness :
    (get_learning_phase 10).phase = "global" ∧
    (get_learning_phase 100).phase = "transition" ∧
    (get_learning_phase 400).phase = "personalized" ∧
    (get_learning_phase 100).confidence < (get_learning_phase 200).confidence ∧
    (get_learning_phase 5).confidence ≤ (get_learning_phase 12).confidence :=
  ⟨learning_phase_rule.2.1 10 (by norm_num),
    learning_phase_rule.2.2.1 100 (by norm_num) (by norm_num),
    learning_phase_rule.2.2.2.1 400 (by norm_num),
    learning_phase_rule.2.2.2.2.2.1 100 200 (by norm_num) (by norm_num)
      (by norm_num),
    learning_phase_rule.2.2.2.2.1 5 12 (by norm_num) (by norm_num)⟩



theorem normalize_frequencies_of_sum_one (l : List ℚ) (h : l.sum = 1) :
    normalize_frequencies l = l := by
  unfold normalize_frequencies
  rw [h]
  rw [if_neg (by norm_num : ¬ (1 : ℚ) ≤ 0)]
  simp

/-- C5: on a 7-slot frequency vector summing to 1, the EMA update uses
`alpha = 1 / min(samples + 1, cap)`, moves the observed slot to
`old * (1 - alpha) + alpha`, decays every other slot by `(1 - alpha)`,
renormalizes (a division by the exact total 1), increments the sample count
by 1, and returns a vector that again sums to exactly 1. -/
theorem ema_update_rule (old : List ℚ) (mv n cap : Nat)
    (hlen : old.length = 7) (hsum : old.sum = 1) (hmv : mv < 7)
    (hcap : 1 ≤ cap) :
    (exponential_moving_average_update old mv n cap).2 = n + 1 ∧
    (exponential_moving_average_update old mv n cap).1.length = 7 ∧
    (exponential_moving_average_update old mv n cap).1.sum = 1 ∧
    (∀ k, k < 7 →
      (exponential_moving_average_update old mv n cap).1.getD k 0 =
        (if k = mv then
          old.getD k 0 * (1 - 1 / ((min (n + 1) cap : Nat) : ℚ)) + 1 / ((min (n + 1) cap : Nat) : ℚ)
        else old.getD k 0 * (1 - 1 / ((min (n + 1) cap : Nat) : ℚ)))) := by
  rcases old with _ | ⟨a0, old⟩
  · simp only [List.length_nil] at hlen
    omega
  rcases old with _ | ⟨a1, old⟩
  · simp only [List.length_cons, List.length_nil] at hlen
    omega
  rcases old with _ | ⟨a2, old⟩
  · simp only [List.length_cons, List.length_nil] at hlen
    omega
  rcases old with _ | ⟨a3, old⟩
  · simp only [List.length_cons, List.length_nil] at hlen
    omega
  rcases old with _ | ⟨a4, old⟩
  · simp only [List.length_cons, List.length_nil] at hlen
    omega
  rcases old with _ | ⟨a5, old⟩
  · simp only [List.length_cons, List.length_nil] at hlen
    omega
  rcases old with _ | ⟨a6, old⟩
  · simp only [List.length_cons, List.length_nil] at hlen
    omega
  rcases old with _ | ⟨a7, old⟩
  swap
  · simp only [List.length_cons, List.length_nil] at hlen
    omega
  simp only [List.sum_cons, List.sum_nil, add_zero] at hsum
  have hexp : (exponential_moving_average_update
      [a0, a1, a2, a3, a4, a5, a6] mv n cap).1 =
      normalize_frequencies [
        (if 0 = mv then a0 * (1 - 1 / ((min (n + 1) cap : Nat) : ℚ)) + 1 / ((min (n + 1) cap : Nat) : ℚ) else a0 * (1 - 1 / ((min (n + 1) cap : Nat) : ℚ))),
        (if 1 = mv then a1 * (1 - 1 / ((min (n + 1) cap : Nat) : ℚ)) + 1 / ((min (n + 1) cap : Nat) : ℚ) else a1 * (1 - 1 / ((min (n + 1) cap : Nat) : ℚ))),
        (if 2 = mv then a2 * (1 - 1 / ((min (n + 1) cap : Nat) : ℚ)) + 1 / ((min (n + 1) cap : Nat) : ℚ) else a2 * (1 - 1 / ((min (n + 1) cap : Nat) : ℚ))),
        (if 3 = mv then a3 * (1 - 1 / ((min (n + 1) cap : Nat) : ℚ)) + 1 / ((min (n + 1) cap : Nat) : ℚ) else a3 * (1 - 1 / ((min (n + 1) cap : Nat) : ℚ))),
        (if 4 = mv then a4 * (1 - 1 / ((min (n + 1) cap : Nat) : ℚ)) + 1 / ((min (n + 1) cap : Nat) : ℚ) else a4 * (1 - 1 / ((min (n + 1) cap : Nat) : ℚ))),
        (if 5 = mv then a5 * (1 - 1 / ((min (n + 1) cap : Nat) : ℚ)) + 1 / ((min (n + 1) cap : Nat) : ℚ) else a5 * (1 - 1 / ((min (n + 1) cap : Nat) : ℚ))),
        (if 6 = mv then a6 * (1 - 1 / ((min (n + 1) cap : Nat) : ℚ)) + 1 / ((min (n + 1) cap : Nat) : ℚ) else a6 * (1 - 1 / ((min (n + 1) cap : Nat) : ℚ)))] := rfl
  have hsum7 : ([
        (if 0 = mv then a0 * (1 - 1 / ((min (n + 1) cap : Nat) : ℚ)) + 1 / ((min (n + 1) cap : Nat) : ℚ) else a0 * (1 - 1 / ((min (n + 1) cap : Nat) : ℚ))),
        (if 1 = mv then a1 * (1 - 1 / ((min (n + 1) cap : Nat) : ℚ)) + 1 / ((min (n + 1) cap : Nat) : ℚ) else a1 * (1 - 1 / ((min (n + 1) cap : Nat) : ℚ))),
        (if 2 = mv then a2 * (1 - 1 / ((min (n + 1) cap : Nat) : ℚ)) + 1 / ((min (n + 1) cap : Nat) : ℚ) else a2 * (1 - 1 / ((min (n + 1) cap : Nat) : ℚ))),
        (if 3 = mv then a3 * (1 - 1 / ((min (n + 1) cap : Nat) : ℚ)) + 1 / ((min (n + 1) cap : Nat) : ℚ) else a3 * (1 - 1 / ((min (n + 1) cap : Nat) : ℚ))),
        (if 4 = mv then a4 * (1 - 1 / ((min (n + 1) cap : Nat) : ℚ)) + 1 / ((min (n + 1) cap : Nat) : ℚ) else a4 * (1 - 1 / ((min (n + 1) cap : Nat) : ℚ))),
        (if 5 = mv then a5 * (1 - 1 / ((min (n + 1) cap : Nat) : ℚ)) + 1 / ((min (n + 1) cap : Nat) : ℚ) else a5 * (1 - 1 / ((min (n + 1) cap : Nat) : ℚ))),
        (if 6 = mv then a6 * (1 - 1 / ((min (n + 1) cap : Nat) : ℚ)) + 1 / ((min (n + 1) cap : Nat) : ℚ) else a6 * (1 - 1 / ((min (n + 1) cap : Nat) : ℚ)))] : List ℚ).sum = 1 := by
    simp only [List.sum_cons, List.sum_nil, add_zero]
    generalize (1 / ((min (n + 1) cap : Nat) : ℚ)) = al
    interval_cases mv <;>
      · simp
        linear_combination (1 - al) * hsum
  refine ⟨rfl, ?_, ?_, ?_⟩
  · rw [hexp, normalize_frequencies_of_sum_one _ hsum7]
    rfl
  · rw [hexp, normalize_frequencies_of_sum_one _ hsum7]
    exact hsum7
  · intro k hk
    rw [hexp, normalize_frequencies_of_sum_one _ hsum7]
    interval_cases k <;> rfl



/-- Witness for C5: a uniform 7-slot vector, observed move 3, sample
count 5, cap 200. -/
theorem ema_update_rule_witness :
    (exponential_moving_average_update [1/7, 1/7, 1/7, 1/7, 1/7, 1/7, 1/7] 3 5 200).2 = 5 + 1 ∧
    (exponential_moving_average_update [1/7, 1/7, 1/7, 1/7, 1/7, 1/7, 1/7] 3 5 200).1.length = 7 ∧
    (exponential_moving_average_update [1/7, 1/7, 1/7, 1/7, 1/7, 1/7, 1/7] 3 5 200).1.sum = 1 ∧
    (∀ k, k < 7 →
      (exponential_moving_average_update [1/7, 1/7, 1/7, 1/7, 1/7, 1/7, 1/7] 3 5 200).1.getD k 0 =
        (if k = 3 then
          ([1/7, 1/7, 1/7, 1/7, 1/7, 1/7, 1/7] : List ℚ).getD k 0 * (1 - 1 / ((min (5 + 1) 200 : Nat) : ℚ)) + 1 / ((min (5 + 1) 200 : Nat) : ℚ)
        else ([1/7, 1/7, 1/7, 1/7, 1/7, 1/7, 1/7] : List ℚ).getD k 0 * (1 - 1 / ((min (5 + 1) 200 : Nat) : ℚ)))) :=
  ema_update_rule [1/7, 1/7, 1/7, 1/7, 1/7, 1/7, 1/7] 3 5 200 rfl
    (by norm_num [List.sum_cons, List.sum_nil]) (by norm_num) (by norm_num)


end CricketGame
